import Mathlib

/-!
Verification development for the glance quota / notification proxy layer.

The embedding below models, in Lean, the data model and the operations of
the repository source:

* `glance/notifier.py` (fully present in the source tree): payload
  formatting (`format_image_notification`, `format_task_notification`),
  the notifying repository proxies (`ImageRepoProxy`, `TaskRepoProxy`),
  the notifying entity proxies (`ImageProxy.set_data`, `TaskProxy`).
  Side effects (calls into the wrapped repository or entity, notification
  emission) are made explicit as an ordered trace of actions, and Python
  exception propagation is made explicit as an `Except` value carrying
  the trace produced up to the raise.

* the quota module (`glance/quota`), which is exercised by
  `glance/tests/unit/test_quota.py` but whose own source file is not in
  the tree; its operations are modelled from the specification text, as
  flagged in the relevant doc comments.
-/

namespace Glance

/-- Severity of an emitted notification, mirroring the three methods
`info`, `warn`, `error` of the `Notifier` class. -/
inductive Severity where
  | info
  | warn
  | error
deriving DecidableEq, Repr

/-- Values appearing in a notification payload dictionary. -/
inductive JVal where
  | str (s : String)
  | num (n : Int)
  | boolean (b : Bool)
  | null
  | dict (d : List (String × String))
  | strList (l : List String)
deriving DecidableEq, Repr

/-- A notification payload: either a dictionary of fields (the formatted
entity snapshot) or a bare human-readable message string. -/
inductive Payload where
  | fields (p : List (String × JVal))
  | text (msg : String)
deriving DecidableEq, Repr

/-- A storage location of an image: a url plus a metadata mapping. -/
structure Location where
  url : String
  metadata : List (String × String)
deriving DecidableEq, Repr

/-- The image domain entity, with the attributes read by
`format_image_notification` plus the `locations` attribute (which the
formatter deliberately does not read). -/
structure Image where
  image_id : String
  name : String
  status : String
  created_at : Nat
  updated_at : Nat
  min_disk : Int
  min_ram : Int
  protected_ : Bool
  checksum : String
  owner : String
  disk_format : String
  container_format : String
  size : Int
  visibility : String
  extra_properties : List (String × String)
  tags : List String
  locations : List Location
deriving DecidableEq, Repr

/-- The task domain entity, with the attributes read by
`format_task_notification` plus the sensitive `input` and `result`
attributes (which the formatter deliberately does not read). -/
structure Task where
  task_id : String
  type : String
  status : String
  owner : String
  input : String
  result : String
  message : String
  expires_at : Nat
  created_at : Nat
  updated_at : Nat
deriving DecidableEq, Repr

/-- Model of the external `timeutils.isotime` helper: a deterministic
rendering of a timestamp as a string. -/
def isotime (t : Nat) : String := "ts-" ++ toString t

/-- Embedding of `format_image_notification` (notifier.py lines 100-125):
the payload dictionary built for image notifications, field by field and
in source order.  The source comment notes that `location` is purposely
not included as it may contain credentials. -/
def format_image_notification (image : Image) : List (String × JVal) :=
  [("id", .str image.image_id),
   ("name", .str image.name),
   ("status", .str image.status),
   ("created_at", .str (isotime image.created_at)),
   ("updated_at", .str (isotime image.updated_at)),
   ("min_disk", .num image.min_disk),
   ("min_ram", .num image.min_ram),
   ("protected", .boolean image.protected_),
   ("checksum", .str image.checksum),
   ("owner", .str image.owner),
   ("disk_format", .str image.disk_format),
   ("container_format", .str image.container_format),
   ("size", .num image.size),
   ("is_public", .boolean (image.visibility == "public")),
   ("properties", .dict image.extra_properties),
   ("tags", .strList image.tags),
   ("deleted", .boolean false),
   ("deleted_at", .null)]

/-- Embedding of `format_task_notification` (notifier.py lines 128-142):
the payload dictionary built for task notifications.  The source comment
notes that the task input is not passed to the payload as it may contain
sensitive information; the `result` and `message` fields are hardcoded
to None. -/
def format_task_notification (task : Task) : List (String × JVal) :=
  [("id", .str task.task_id),
   ("type", .str task.type),
   ("status", .str task.status),
   ("result", .null),
   ("owner", .str task.owner),
   ("message", .null),
   ("expires_at", .str (isotime task.expires_at)),
   ("created_at", .str (isotime task.created_at)),
   ("updated_at", .str (isotime task.updated_at)),
   ("deleted", .boolean false),
   ("deleted_at", .null)]

/-- Python dictionary update `d[k] = v` for a key already present in the
payload dictionary. -/
def setKey (p : List (String × JVal)) (k : String) (v : JVal) :
    List (String × JVal) :=
  p.map fun kv => if kv.1 == k then (k, v) else kv

/-- The delegated calls a notifying proxy can make into the wrapped
repository or wrapped task entity. -/
inductive WrappedCall where
  | repoAdd
  | repoSave
  | repoRemove
  | taskRun
  | taskBeginProcessing
  | taskSucceed
  | taskFail
deriving DecidableEq, Repr

/-- One observable step of a proxy method: a delegated call into the
wrapped object (tagged with whether that call succeeded), an emitted
notification, or the attempt to write the image data during
`set_data`. -/
inductive Action where
  | call (c : WrappedCall) (ok : Bool)
  | note (sev : Severity) (etype : String) (payload : Payload)
  | writeAttempt
deriving DecidableEq, Repr

/-- The observable history of a proxy method run: its actions in order. -/
abbrev Trace := List Action

/-- Emit a notification: appends a `note` action to the trace. -/
def emit (w : Trace) (sev : Severity) (etype : String) (p : Payload) :
    Trace :=
  w ++ [.note sev etype p]

/-- Perform a delegated call into the wrapped object.  `ok` says whether
the wrapped call succeeds; when it raises, the exception propagates
(`Except.error`) carrying the trace up to that point. -/
def callWrapped (w : Trace) (c : WrappedCall) (ok : Bool) :
    Except Trace Trace :=
  let w' := w ++ [.call c ok]
  if ok then .ok w' else .error w'

/-- The trace produced by a proxy method, whether it returned or raised. -/
def traceOfE : Except Trace Trace → Trace
  | .ok w => w
  | .error w => w

/-- Whether the proxy method run ended in a raised exception. -/
def raisedE : Except Trace Trace → Bool
  | .ok _ => false
  | .error _ => true

/-- The notifications contained in a trace, in order. -/
def notesOf (w : Trace) : Trace :=
  w.filter fun a => match a with
    | .note _ _ _ => true
    | _ => false

/-- The delegated wrapped calls contained in a trace, in order. -/
def callsOf (w : Trace) : List WrappedCall :=
  w.foldr (fun a acc => match a with
    | .call c _ => c :: acc
    | _ => acc) []

/-- Embedding of `ImageRepoProxy.save` (notifier.py lines 156-159):
delegate to the wrapped repository save, then emit an info
`image.update` notification with the formatted image payload. -/
def imageRepoProxy_save (ok : Bool) (image : Image) (w : Trace) :
    Except Trace Trace := do
  let w' ← callWrapped w .repoSave ok
  pure (emit w' .info "image.update" (.fields (format_image_notification image)))

/-- Embedding of `ImageRepoProxy.add` (notifier.py lines 161-164):
delegate to the wrapped repository add, then emit an info
`image.create` notification with the formatted image payload. -/
def imageRepoProxy_add (ok : Bool) (image : Image) (w : Trace) :
    Except Trace Trace := do
  let w' ← callWrapped w .repoAdd ok
  pure (emit w' .info "image.create" (.fields (format_image_notification image)))

/-- The `image.delete` payload: the formatted image payload with
`deleted` set to True and `deleted_at` set to the current time
(notifier.py lines 168-170). -/
def imageDeletePayload (now : Nat) (image : Image) : List (String × JVal) :=
  setKey (setKey (format_image_notification image)
    "deleted" (.boolean true)) "deleted_at" (.str (isotime now))

/-- The `task.delete` payload: the formatted task payload with `deleted`
set to True and `deleted_at` set to the current time (notifier.py lines
288-290). -/
def taskDeletePayload (now : Nat) (task : Task) : List (String × JVal) :=
  setKey (setKey (format_task_notification task)
    "deleted" (.boolean true)) "deleted_at" (.str (isotime now))

/-- Embedding of `ImageRepoProxy.remove` (notifier.py lines 166-171):
delegate to the wrapped repository remove, then emit an info
`image.delete` notification whose payload is the formatted image payload
with `deleted` set to True and `deleted_at` set to the current time. -/
def imageRepoProxy_remove (ok : Bool) (now : Nat) (image : Image)
    (w : Trace) : Except Trace Trace := do
  let w' ← callWrapped w .repoRemove ok
  pure (emit w' .info "image.delete" (.fields (imageDeletePayload now image)))

/-- Embedding of `TaskRepoProxy.add` (notifier.py lines 282-285): emit an
info `task.create` notification first, then delegate to the wrapped
repository add. -/
def taskRepoProxy_add (ok : Bool) (task : Task) (w : Trace) :
    Except Trace Trace := do
  let w' := emit w .info "task.create" (.fields (format_task_notification task))
  callWrapped w' .repoAdd ok

/-- Embedding of `TaskRepoProxy.remove` (notifier.py lines 287-292): emit
an info `task.delete` notification (payload with `deleted` True and
`deleted_at` set), then delegate.  The source delegates to the wrapped
repository `add`, not `remove`, at line 292. -/
def taskRepoProxy_remove (ok : Bool) (now : Nat) (task : Task)
    (w : Trace) : Except Trace Trace := do
  let w' := emit w .info "task.delete" (.fields (taskDeletePayload now task))
  callWrapped w' .repoAdd ok

/-- Embedding of `TaskProxy.run` (notifier.py lines 311-314): emit an
info `task.run` notification first, then delegate to the wrapped task. -/
def taskProxy_run (ok : Bool) (task : Task) (w : Trace) :
    Except Trace Trace := do
  let w' := emit w .info "task.run" (.fields (format_task_notification task))
  callWrapped w' .taskRun ok

/-- Embedding of `TaskProxy.begin_processing` (notifier.py lines
316-321): emit an info `task.processing` notification first, then
delegate to the wrapped task. -/
def taskProxy_begin_processing (ok : Bool) (task : Task) (w : Trace) :
    Except Trace Trace := do
  let w' := emit w .info "task.processing" (.fields (format_task_notification task))
  callWrapped w' .taskBeginProcessing ok

/-- Embedding of `TaskProxy.succeed` (notifier.py lines 323-326): emit an
info `task.success` notification first, then delegate to the wrapped
task. -/
def taskProxy_succeed (ok : Bool) (task : Task) (w : Trace) :
    Except Trace Trace := do
  let w' := emit w .info "task.success" (.fields (format_task_notification task))
  callWrapped w' .taskSucceed ok

/-- Embedding of `TaskProxy.fail` (notifier.py lines 328-331): emit an
info `task.failure` notification first, then delegate to the wrapped
task. -/
def taskProxy_fail (ok : Bool) (task : Task) (w : Trace) :
    Except Trace Trace := do
  let w' := emit w .info "task.failure" (.fields (format_task_notification task))
  callWrapped w' .taskFail ok

/-- A concrete image used for concrete evaluations. -/
def sampleImage : Image :=
  { image_id := "xyz", name := "img", status := "active",
    created_at := 1, updated_at := 2, min_disk := 0, min_ram := 0,
    protected_ := false, checksum := "abc", owner := "someone",
    disk_format := "raw", container_format := "bare", size := 10,
    visibility := "private", extra_properties := [("k", "v")],
    tags := ["t1"],
    locations := [{ url := "file:///not/a/path", metadata := [] }] }

/-- A concrete task used for concrete evaluations. -/
def sampleTask : Task :=
  { task_id := "tid", type := "import", status := "pending",
    owner := "someone", input := "secret-input", result := "secret-result",
    message := "", expires_at := 3, created_at := 1, updated_at := 2 }

/-- The error kinds the wrapped data-setting operation can raise into
`ImageProxy.set_data`, matching the except clauses of notifier.py lines
223-264 in source order: `exception.StorageFull`,
`exception.StorageWriteDenied`, `ValueError`, `exception.Duplicate`,
`exception.Forbidden`, `exception.NotFound`, `webob.exc.HTTPError`, and
any other exception.  Each carries its message string. -/
inductive WrapErr where
  | storageFull (m : String)
  | storageWriteDenied (m : String)
  | valueError (m : String)
  | duplicate (m : String)
  | forbidden (m : String)
  | notFound (m : String)
  | httpError (m : String)
  | other (m : String)
deriving DecidableEq, Repr

/-- The errors `ImageProxy.set_data` itself lets escape: the webob HTTP
errors it constructs, or the underlying error re-raised unchanged (the
bare `raise` branches for `webob.exc.HTTPError` and the generic
exception handler). -/
inductive RaisedErr where
  | httpRequestEntityTooLarge (explanation : String)
  | httpServiceUnavailable (explanation : String)
  | httpBadRequest (explanation : String)
  | httpConflict (explanation : String)
  | httpForbidden (explanation : String)
  | httpNotFound (explanation : String)
  | reRaised (e : WrapErr)
deriving DecidableEq, Repr

/-- The name of the Python exception class of a wrapped-entity error. -/
def WrapErr.kindName : WrapErr → String
  | .storageFull _ => "StorageFull"
  | .storageWriteDenied _ => "StorageWriteDenied"
  | .valueError _ => "ValueError"
  | .duplicate _ => "Duplicate"
  | .forbidden _ => "Forbidden"
  | .notFound _ => "NotFound"
  | .httpError _ => "HTTPError"
  | .other _ => "Exception"

/-- The name of the Python exception class of an error raised out of
`ImageProxy.set_data`. -/
def RaisedErr.kindName : RaisedErr → String
  | .httpRequestEntityTooLarge _ => "HTTPRequestEntityTooLarge"
  | .httpServiceUnavailable _ => "HTTPServiceUnavailable"
  | .httpBadRequest _ => "HTTPBadRequest"
  | .httpConflict _ => "HTTPConflict"
  | .httpForbidden _ => "HTTPForbidden"
  | .httpNotFound _ => "HTTPNotFound"
  | .reRaised e => e.kindName

/-- The message formatted by `ImageProxy.set_data` for each error kind
(notifier.py lines 224, 228, 233, 238, 243, 248, 254, 260), with the
Python `%s` interpolations of the image id and of the underlying error
message spelled out. -/
def uploadErrMsg (image : Image) : WrapErr → String
  | .storageFull m => "Image storage media is full: " ++ m
  | .storageWriteDenied m =>
      "Insufficient permissions on image storage media: " ++ m
  | .valueError m =>
      "Cannot save data for image " ++ image.image_id ++ ": " ++ m
  | .duplicate m =>
      "Unable to upload duplicate image data for image "
        ++ image.image_id ++ ": " ++ m
  | .forbidden m =>
      "Not allowed to upload image data for image "
        ++ image.image_id ++ ": " ++ m
  | .notFound m =>
      "Image " ++ image.image_id ++ " could not be found after upload."
        ++ " The image may have been deleted during the upload: " ++ m
  | .httpError m =>
      "Failed to upload image data for image " ++ image.image_id
        ++ " due to HTTP error: " ++ m
  | .other m =>
      "Failed to upload image data for image " ++ image.image_id
        ++ " due to internal error: " ++ m

/-- The outcome of a `set_data` run: the ordered trace of notifications
and the write attempt, plus the error it raised, if any. -/
structure UploadResult where
  trace : Trace
  raised : Option RaisedErr
deriving DecidableEq, Repr

/-- Embedding of the notifying `ImageProxy.set_data` (notifier.py lines
218-268).  `image` is the wrapped image before the write; `outcome` is
what the wrapped data-setting operation does: either it succeeds,
leaving the wrapped image in the state `final`, or it raises a
`WrapErr`.  The method emits an info `image.prepare` notification with
the current snapshot, attempts the write, and then either emits the
info `image.upload` and `image.activate` pair with the final snapshot,
or emits an error `image.upload` notification whose payload is the
formatted message string and raises: a webob HTTP error built from the
message (for `StorageFull`, `StorageWriteDenied`, `ValueError`,
`Duplicate`, `Forbidden`, `NotFound`, where the `ValueError` and
`NotFound` branches pass the underlying message, not the enriched one,
as the explanation), or the original error re-raised (for
`webob.exc.HTTPError` and unexpected errors). -/
def notify_set_data (image : Image) (outcome : Except WrapErr Image) :
    UploadResult :=
  let prep : Action :=
    .note .info "image.prepare" (.fields (format_image_notification image))
  match outcome with
  | .ok final =>
      let payload := Payload.fields (format_image_notification final)
      { trace := [prep, .writeAttempt,
                  .note .info "image.upload" payload,
                  .note .info "image.activate" payload],
        raised := none }
  | .error e =>
      let msg := uploadErrMsg image e
      let errNote : Action := .note .error "image.upload" (.text msg)
      let raised : RaisedErr :=
        match e with
        | .storageFull _ => .httpRequestEntityTooLarge msg
        | .storageWriteDenied _ => .httpServiceUnavailable msg
        | .valueError m => .httpBadRequest m
        | .duplicate _ => .httpConflict msg
        | .forbidden _ => .httpForbidden msg
        | .notFound m => .httpNotFound m
        | .httpError m => .reRaised (.httpError m)
        | .other m => .reRaised (.other m)
      { trace := [prep, .writeAttempt, errNote], raised := some raised }

/-- The three count-quota dimensions of the Quota Policy Engine. -/
inductive CountKind where
  | properties
  | tags
  | members
deriving DecidableEq, Repr

/-- The kind-specific lead-in of a count-quota violation message. -/
def countKindMsg : CountKind → String
  | .properties =>
      "The limit has been exceeded on the number of allowed image properties. "
  | .tags =>
      "The limit has been exceeded on the number of allowed image tags. "
  | .members =>
      "The limit has been exceeded on the number of allowed image members for this image. "

/-- Modelled from the spec: the count check of the Quota Policy Engine
(the `glance/quota` module source is not under the source tree; only its
unit tests are).  Per the spec, a negative limit means unlimited and
bypasses the check entirely, zero rejects any non-empty attempt,
positive limits require attempted count to be at most the limit, and the
violation message reports the attempted and maximum values verbatim as
Attempted / Maximum.  Returns the violation message, or `none` when the
attempt is allowed. -/
def check_count_quota (kind : CountKind) (limit : Int) (attempted : Nat) :
    Option String :=
  if limit < 0 then none
  else if (attempted : Int) ≤ limit then none
  else some (countKindMsg kind ++ "Attempted: " ++ toString attempted
    ++ ", Maximum: " ++ toString limit)

/-- The string `pat` occurs as a contiguous substring of `s`. -/
def strContains (s pat : String) : Prop :=
  ∃ p q, s = p ++ pat ++ q

/-- Modelled from the spec: the storage check of the Quota Policy Engine
(the `glance/quota` module source is not under the source tree).  The
check succeeds when the caller is an admin, the configured quota is
negative (unlimited), or the weighted size is within the quota. -/
def storage_ok (quota : Int) (isAdmin : Bool) (weight : Int) : Bool :=
  isAdmin || decide (quota < 0) || decide (weight ≤ quota)

/-- The quota-violation errors raised by the quota proxies. -/
inductive QuotaErr where
  | storageQuotaFull
  | limitExceeded (kind : CountKind) (msg : String)
deriving DecidableEq, Repr

/-- The weighted storage size of an image that holds `count` locations:
each location weighs the full image size. -/
def weightedSize (image : Image) (count : Nat) : Int :=
  image.size * (count : Int)

/-- Modelled from the spec: `append` on the quota-guarded locations
collection (`QuotaImageLocationsProxy` of the missing `glance/quota`
module).  The resulting weighted size (one full image size per location,
including the appended one) is checked against the storage quota; only
if it passes is the mutation applied, otherwise the image is returned
untouched together with the error. -/
def quotaLocations_append (quota : Int) (isAdmin : Bool) (image : Image)
    (loc : Location) : Image × Option QuotaErr :=
  if storage_ok quota isAdmin (weightedSize image (image.locations.length + 1)) then
    ({ image with locations := image.locations ++ [loc] }, none)
  else (image, some .storageQuotaFull)

/-- Modelled from the spec: `insert` on the quota-guarded locations
collection; same check as `append`, the new element entering at
position `idx`. -/
def quotaLocations_insert (quota : Int) (isAdmin : Bool) (image : Image)
    (idx : Nat) (loc : Location) : Image × Option QuotaErr :=
  if storage_ok quota isAdmin (weightedSize image (image.locations.length + 1)) then
    ({ image with locations :=
        image.locations.take idx ++ [loc] ++ image.locations.drop idx }, none)
  else (image, some .storageQuotaFull)

/-- Modelled from the spec: `extend` on the quota-guarded locations
collection; the resulting weighted size counts every appended
element. -/
def quotaLocations_extend (quota : Int) (isAdmin : Bool) (image : Image)
    (locs : List Location) : Image × Option QuotaErr :=
  if storage_ok quota isAdmin
      (weightedSize image (image.locations.length + locs.length)) then
    ({ image with locations := image.locations ++ locs }, none)
  else (image, some .storageQuotaFull)

/-- Modelled from the spec: in-place concatenation on the quota-guarded
locations collection; identical check and effect as `extend`. -/
def quotaLocations_iadd (quota : Int) (isAdmin : Bool) (image : Image)
    (locs : List Location) : Image × Option QuotaErr :=
  quotaLocations_extend quota isAdmin image locs

/-- Modelled from the spec: bulk replace of the locations collection via
assignment (the locations setter of the quota `ImageProxy`); the
resulting weighted size is the image size times the length of the
replacement list. -/
def quotaLocations_replace (quota : Int) (isAdmin : Bool) (image : Image)
    (locs : List Location) : Image × Option QuotaErr :=
  if storage_ok quota isAdmin (weightedSize image locs.length) then
    ({ image with locations := locs }, none)
  else (image, some .storageQuotaFull)

/-- Modelled from the spec: `add` on the quota-guarded tags collection
(`QuotaImageTagsProxy` of the missing `glance/quota` module).  Tags form
a set, so adding a present tag leaves it unchanged; the resulting
cardinality is checked against the tag count quota before the mutation
is applied. -/
def quotaTags_add (limit : Int) (image : Image) (t : String) :
    Image × Option QuotaErr :=
  let candidate :=
    if image.tags.contains t then image.tags else image.tags ++ [t]
  match check_count_quota .tags limit candidate.length with
  | none => ({ image with tags := candidate }, none)
  | some e => (image, some (.limitExceeded .tags e))

/-- Modelled from the spec: bulk replace of the tags collection via
assignment (the tags setter of the quota `ImageProxy`); the replacement
collection is checked against the tag count quota before being
assigned. -/
def quotaTags_replace (limit : Int) (image : Image) (newTags : List String) :
    Image × Option QuotaErr :=
  match check_count_quota .tags limit newTags.length with
  | none => ({ image with tags := newTags }, none)
  | some e => (image, some (.limitExceeded .tags e))

/-- Modelled from the spec: `remove` on the quota-guarded tags
collection; removal operations are never quota-checked. -/
def quotaTags_remove (image : Image) (t : String) :
    Image × Option QuotaErr :=
  ({ image with tags := image.tags.filter (fun x => x != t) }, none)

/-- The outcome of a run of the quota `ImageProxy.set_data`: whether the
up-front declared-size check passed, whether the write to the backend
was attempted, how many bytes were written (the stream is capped at the
remaining quota by a limiting reader), whether the backend cleanup was
invoked, and whether `StorageQuotaFull` was raised. -/
structure QSetDataResult where
  earlyCheckPassed : Bool
  writeAttempted : Bool
  bytesWritten : Nat
  cleanupInvoked : Bool
  storageQuotaFullRaised : Bool
deriving DecidableEq, Repr

/-- Modelled from the spec: the quota `ImageProxy.set_data` (the
`glance/quota` module source is not under the source tree; only its unit
tests are).  Per the spec three-tier size determination: with no quota
(negative) or an admin caller the stream is written unchecked; with a
declared size, the declared size is checked up front against the
remaining quota and the upload fails before any write when it exceeds
it, while a declared size within the remaining quota lets the write
begin with the stream capped at the remaining quota, and a stream that
proves longer than the remaining quota fails with `StorageQuotaFull`
after the fact; with no declared size the check is deferred until the
stream is drained.  Whether the backend cleanup runs on a late failure
follows the unit tests: it runs in the undeclared-size path
(`test_quota_exceeded_no_size` expects the backend delete) and not in
the declared-size paths (`test_quota_exceeded_with_right_size` and
`test_quota_exceeded_with_lie_size` expect no backend delete). -/
def quota_set_data (quota : Int) (isAdmin : Bool) (consumed : Nat)
    (declared : Option Nat) (streamLen : Nat) : QSetDataResult :=
  if isAdmin || quota < 0 then
    { earlyCheckPassed := true, writeAttempted := true,
      bytesWritten := streamLen, cleanupInvoked := false,
      storageQuotaFullRaised := false }
  else
    let remaining : Int := quota - (consumed : Int)
    match declared with
    | some d =>
        if (d : Int) > remaining then
          { earlyCheckPassed := false, writeAttempted := false,
            bytesWritten := 0, cleanupInvoked := false,
            storageQuotaFullRaised := true }
        else if (streamLen : Int) > remaining then
          { earlyCheckPassed := true, writeAttempted := true,
            bytesWritten := remaining.toNat, cleanupInvoked := false,
            storageQuotaFullRaised := true }
        else
          { earlyCheckPassed := true, writeAttempted := true,
            bytesWritten := streamLen, cleanupInvoked := false,
            storageQuotaFullRaised := false }
    | none =>
        if remaining ≤ 0 then
          { earlyCheckPassed := false, writeAttempted := false,
            bytesWritten := 0, cleanupInvoked := false,
            storageQuotaFullRaised := true }
        else if (streamLen : Int) > remaining then
          { earlyCheckPassed := true, writeAttempted := true,
            bytesWritten := remaining.toNat, cleanupInvoked := true,
            storageQuotaFullRaised := true }
        else
          { earlyCheckPassed := true, writeAttempted := true,
            bytesWritten := streamLen, cleanupInvoked := false,
            storageQuotaFullRaised := false }

/-- C1: through `ImageRepoProxy.remove` the wrapped repository remove is
invoked exactly once and exactly one `image.delete` notification with
`deleted` True and a non-null `deleted_at` is emitted; but through
`TaskRepoProxy.remove` the code delegates to the wrapped repository
`add`, not `remove` (notifier.py line 292), even though it emits the
`task.delete` notification — the wrapped remove is never invoked. -/
theorem taskRepoProxy_remove_delegates_to_add :
    callsOf (traceOfE (imageRepoProxy_remove true 7 sampleImage [])) =
      [.repoRemove] ∧
    notesOf (traceOfE (imageRepoProxy_remove true 7 sampleImage [])) =
      [.note .info "image.delete" (.fields (imageDeletePayload 7 sampleImage))] ∧
    (imageDeletePayload 7 sampleImage).lookup "deleted" =
      some (.boolean true) ∧
    (imageDeletePayload 7 sampleImage).lookup "deleted_at" =
      some (.str (isotime 7)) ∧
    callsOf (traceOfE (taskRepoProxy_remove true 7 sampleTask [])) =
      [.repoAdd] ∧
    notesOf (traceOfE (taskRepoProxy_remove true 7 sampleTask [])) =
      [.note .info "task.delete" (.fields (taskDeletePayload 7 sampleTask))] ∧
    WrappedCall.repoAdd ≠ WrappedCall.repoRemove := by
  refine ⟨rfl, rfl, by decide, by decide, rfl, rfl, by decide⟩

/-- C4 counterexample: `TaskProxy.run` emits its `task.run` notification
before delegating, so when the wrapped call raises, the notification has
already been emitted — contradicting the claim that for every
intercepted mutating operation other than `set_data` no notification is
emitted when the wrapped call raises. -/
theorem taskProxy_run_notifies_despite_failure :
    raisedE (taskProxy_run false sampleTask []) = true ∧
    notesOf (traceOfE (taskProxy_run false sampleTask [])) =
      [.note .info "task.run" (.fields (format_task_notification sampleTask))] :=
  ⟨rfl, rfl⟩

/-- C4 amended: the image repository proxy operations (save, add,
remove) emit their notification only after the delegated call has
succeeded, and emit nothing when the wrapped call raises; the task
repository operations (add, remove) and the task proxy operations (run,
begin_processing, succeed, fail) instead emit their notification before
delegating, so the notification is emitted even when the wrapped call
raises. -/
theorem proxy_notification_order (img : Image) (t : Task) (w : Trace)
    (now : Nat) :
    (imageRepoProxy_save false img w = .error (w ++ [.call .repoSave false])) ∧
    (imageRepoProxy_save true img w = .ok (w ++
      [.call .repoSave true,
       .note .info "image.update" (.fields (format_image_notification img))])) ∧
    (imageRepoProxy_add false img w = .error (w ++ [.call .repoAdd false])) ∧
    (imageRepoProxy_add true img w = .ok (w ++
      [.call .repoAdd true,
       .note .info "image.create" (.fields (format_image_notification img))])) ∧
    (imageRepoProxy_remove false now img w =
      .error (w ++ [.call .repoRemove false])) ∧
    (imageRepoProxy_remove true now img w = .ok (w ++
      [.call .repoRemove true,
       .note .info "image.delete" (.fields (imageDeletePayload now img))])) ∧
    (taskRepoProxy_add false t w = .error (w ++
      [.note .info "task.create" (.fields (format_task_notification t)),
       .call .repoAdd false])) ∧
    (taskRepoProxy_add true t w = .ok (w ++
      [.note .info "task.create" (.fields (format_task_notification t)),
       .call .repoAdd true])) ∧
    (taskRepoProxy_remove false now t w = .error (w ++
      [.note .info "task.delete" (.fields (taskDeletePayload now t)),
       .call .repoAdd false])) ∧
    (taskRepoProxy_remove true now t w = .ok (w ++
      [.note .info "task.delete" (.fields (taskDeletePayload now t)),
       .call .repoAdd true])) ∧
    (taskProxy_run false t w = .error (w ++
      [.note .info "task.run" (.fields (format_task_notification t)),
       .call .taskRun false])) ∧
    (taskProxy_run true t w = .ok (w ++
      [.note .info "task.run" (.fields (format_task_notification t)),
       .call .taskRun true])) ∧
    (taskProxy_begin_processing false t w = .error (w ++
      [.note .info "task.processing" (.fields (format_task_notification t)),
       .call .taskBeginProcessing false])) ∧
    (taskProxy_begin_processing true t w = .ok (w ++
      [.note .info "task.processing" (.fields (format_task_notification t)),
       .call .taskBeginProcessing true])) ∧
    (taskProxy_succeed false t w = .error (w ++
      [.note .info "task.success" (.fields (format_task_notification t)),
       .call .taskSucceed false])) ∧
    (taskProxy_succeed true t w = .ok (w ++
      [.note .info "task.success" (.fields (format_task_notification t)),
       .call .taskSucceed true])) ∧
    (taskProxy_fail false t w = .error (w ++
      [.note .info "task.failure" (.fields (format_task_notification t)),
       .call .taskFail false])) ∧
    (taskProxy_fail true t w = .ok (w ++
      [.note .info "task.failure" (.fields (format_task_notification t)),
       .call .taskFail true])) := by
  refine ⟨?_, ?_, ?_, ?_, ?_, ?_, ?_, ?_, ?_, ?_, ?_, ?_, ?_, ?_, ?_, ?_,
    ?_, ?_⟩ <;>
    simp [imageRepoProxy_save, imageRepoProxy_add, imageRepoProxy_remove,
      taskRepoProxy_add, taskRepoProxy_remove, taskProxy_run,
      taskProxy_begin_processing, taskProxy_succeed, taskProxy_fail,
      callWrapped, emit]

/-- C8: every `set_data` run through the notifying `ImageProxy` —
whichever way the wrapped write turns out — begins by emitting an info
`image.prepare` notification carrying the current entity snapshot and
only then attempts the write; and on success it emits an info
`image.upload` notification followed by a distinct info `image.activate`
notification, both carrying the final entity snapshot. -/
theorem set_data_success_notification_sequence (image final : Image)
    (outcome : Except WrapErr Image) :
    (notify_set_data image outcome).trace.take 2 =
      [.note .info "image.prepare"
         (.fields (format_image_notification image)),
       .writeAttempt] ∧
    notify_set_data image (.ok final) =
      { trace :=
          [.note .info "image.prepare"
             (.fields (format_image_notification image)),
           .writeAttempt,
           .note .info "image.upload"
             (.fields (format_image_notification final)),
           .note .info "image.activate"
             (.fields (format_image_notification final))],
        raised := none } ∧
    ("image.upload" : String) ≠ "image.activate" := by
  refine ⟨?_, rfl, by decide⟩
  cases outcome <;> rfl

/-- C9: the formatted image notification payload carries no location
data — it has no location key and does not depend on the image
locations at all — and the formatted task notification payload carries
neither the task input nor its result: it has no input key, its result
field is hardcoded to null, and it does not depend on the input or
result attributes at all. -/
theorem payloads_exclude_sensitive_data (i : Image) (locs : List Location)
    (t : Task) (inp res : String) :
    format_image_notification { i with locations := locs } =
      format_image_notification i ∧
    ((format_image_notification i).map Prod.fst).contains "location" = false ∧
    ((format_image_notification i).map Prod.fst).contains "locations" = false ∧
    format_task_notification { t with input := inp, result := res } =
      format_task_notification t ∧
    ((format_task_notification t).map Prod.fst).contains "input" = false ∧
    (format_task_notification t).lookup "result" = some .null :=
  ⟨rfl, rfl, rfl, rfl, rfl, rfl⟩

/-- C10: on every failing `set_data` the payload passed with the
`image.upload` error notification is the formatted human-readable
message string itself, not an image-snapshot field mapping. -/
theorem set_data_error_payload_is_message (image : Image) (e : WrapErr) :
    (notify_set_data image (.error e)).trace =
      [.note .info "image.prepare"
         (.fields (format_image_notification image)),
       .writeAttempt,
       .note .error "image.upload" (.text (uploadErrMsg image e))] ∧
    ∀ kvs : List (String × JVal),
      Payload.text (uploadErrMsg image e) ≠ Payload.fields kvs := by
  refine ⟨rfl, fun kvs h => Payload.noConfusion h⟩

/-- C3 counterexample: when the wrapped data-setting operation raises
`StorageFull`, the notifying `ImageProxy.set_data` raises
`HTTPRequestEntityTooLarge`, an error of a different kind than the
underlying one — contradicting the claim that an error of the same
underlying kind is re-raised. -/
theorem set_data_reclassifies_storage_full :
    (notify_set_data sampleImage (.error (.storageFull "boom"))).raised =
      some (.httpRequestEntityTooLarge "Image storage media is full: boom") ∧
    RaisedErr.kindName
        (.httpRequestEntityTooLarge "Image storage media is full: boom") ≠
      WrapErr.kindName (.storageFull "boom") :=
  ⟨rfl, by decide⟩

/-- C3 amended: for every failing `set_data` through the notifying
`ImageProxy`, the `image.upload` error notification (whose payload is
the kind-specific enriched message) is emitted first and an error is
always raised (never swallowed); the raised error comes from a fixed
kind-specific mapping — StorageFull to HTTPRequestEntityTooLarge,
StorageWriteDenied to HTTPServiceUnavailable, ValueError to
HTTPBadRequest, Duplicate to HTTPConflict, Forbidden to HTTPForbidden,
NotFound to HTTPNotFound — where the StorageFull, StorageWriteDenied,
Duplicate and Forbidden branches carry the enriched message as the
explanation, but the ValueError and NotFound branches carry the bare
underlying message, not the enriched one; wrapped HTTP errors and
unexpected errors are re-raised unchanged. -/
theorem set_data_error_mapping (image : Image) (m : String) :
    (∀ e : WrapErr,
      (notify_set_data image (.error e)).raised.isSome = true ∧
      (notify_set_data image (.error e)).trace =
        [.note .info "image.prepare"
           (.fields (format_image_notification image)),
         .writeAttempt,
         .note .error "image.upload" (.text (uploadErrMsg image e))]) ∧
    (notify_set_data image (.error (.storageFull m))).raised =
      some (.httpRequestEntityTooLarge
        ("Image storage media is full: " ++ m)) ∧
    (notify_set_data image (.error (.storageWriteDenied m))).raised =
      some (.httpServiceUnavailable
        ("Insufficient permissions on image storage media: " ++ m)) ∧
    (notify_set_data image (.error (.valueError m))).raised =
      some (.httpBadRequest m) ∧
    (notify_set_data image (.error (.duplicate m))).raised =
      some (.httpConflict ("Unable to upload duplicate image data for image "
        ++ image.image_id ++ ": " ++ m)) ∧
    (notify_set_data image (.error (.forbidden m))).raised =
      some (.httpForbidden ("Not allowed to upload image data for image "
        ++ image.image_id ++ ": " ++ m)) ∧
    (notify_set_data image (.error (.notFound m))).raised =
      some (.httpNotFound m) ∧
    (notify_set_data image (.error (.httpError m))).raised =
      some (.reRaised (.httpError m)) ∧
    (notify_set_data image (.error (.other m))).raised =
      some (.reRaised (.other m)) := by
  refine ⟨fun e => ?_, rfl, rfl, rfl, rfl, rfl, rfl, rfl, rfl⟩
  cases e <;> exact ⟨rfl, rfl⟩

/-- C2 counterexample: with a storage quota of 10 bytes, a declared size
of 9 and an actual stream of 11 bytes, `set_data` does raise
`StorageQuotaFull` — contradicting the claim that the write proceeds
without raising it.  This matches `test_quota_exceeded_with_lie_size`,
which asserts that `StorageQuotaFull` is raised. -/
theorem lie_size_upload_raises_quota_full :
    (quota_set_data 10 false 0 (some 9) 11).storageQuotaFullRaised = true :=
  rfl

/-- C2 amended: with a storage quota of 10 bytes, a declared size of 9
and an actual stream of 11 bytes, the up-front quota check passes on the
declared size and the write begins, but once the stream proves longer
than the remaining quota the upload fails with `StorageQuotaFull` after
the fact; the written data is capped at the remaining 10 bytes and no
backend cleanup is invoked. -/
theorem lie_size_upload_outcome :
    quota_set_data 10 false 0 (some 9) 11 =
      { earlyCheckPassed := true, writeAttempted := true, bytesWritten := 10,
        cleanupInvoked := false, storageQuotaFullRaised := true } := by
  decide

/-- C6: for every count-quota dimension, a negative configured limit
makes every attempt succeed; a limit of zero makes every non-empty
attempt fail; and every failure message contains the text
Attempted: n, Maximum: limit with the actual attempted count and
configured limit. -/
theorem count_quota_limits (kind : CountKind) (limit : Int) (n : Nat) :
    (limit < 0 → check_count_quota kind limit n = none) ∧
    (limit = 0 → 0 < n → (check_count_quota kind limit n).isSome = true) ∧
    (∀ e, check_count_quota kind limit n = some e →
      strContains e ("Attempted: " ++ toString n ++ ", Maximum: "
        ++ toString limit)) := by
  refine ⟨fun h => ?_, fun h hn => ?_, fun e he => ?_⟩
  · simp [check_count_quota, h]
  · subst h
    unfold check_count_quota
    rw [if_neg (by omega), if_neg (by omega)]
    rfl
  · unfold check_count_quota at he
    split at he
    · exact absurd he (by simp)
    · split at he
      · exact absurd he (by simp)
      · obtain rfl : _ = e := Option.some.inj he
        refine ⟨countKindMsg kind, "", ?_⟩
        rw [String.append_empty]
        simp only [String.append_assoc]

/-- C6 witness: concrete instances of the three parts of
`count_quota_limits` for the tags dimension. -/
theorem count_quota_limits_witness :
    check_count_quota .tags (-1) 5 = none ∧
    (check_count_quota .tags 0 2).isSome = true ∧
    strContains
      ("The limit has been exceeded on the number of allowed image tags. "
        ++ "Attempted: 2, Maximum: 0")
      "Attempted: 2, Maximum: 0" :=
  ⟨(count_quota_limits .tags (-1) 5).1 (by decide),
   (count_quota_limits .tags 0 2).2.1 rfl (by decide),
   (count_quota_limits .tags 0 2).2.2
     ("The limit has been exceeded on the number of allowed image tags. "
       ++ "Attempted: 2, Maximum: 0") (by decide)⟩

/-- C5: every mutating call on a quota-guarded collection that fails the
quota check leaves the image — and with it the underlying collection:
same length, same elements, same order — completely unchanged. -/
theorem quota_failure_leaves_image_unchanged
    (quota limit : Int) (adm : Bool) (image : Image) (loc : Location)
    (locs : List Location) (idx : Nat) (t : String)
    (newTags : List String) :
    ((quotaLocations_append quota adm image loc).2.isSome = true →
      (quotaLocations_append quota adm image loc).1 = image) ∧
    ((quotaLocations_insert quota adm image idx loc).2.isSome = true →
      (quotaLocations_insert quota adm image idx loc).1 = image) ∧
    ((quotaLocations_extend quota adm image locs).2.isSome = true →
      (quotaLocations_extend quota adm image locs).1 = image) ∧
    ((quotaLocations_iadd quota adm image locs).2.isSome = true →
      (quotaLocations_iadd quota adm image locs).1 = image) ∧
    ((quotaLocations_replace quota adm image locs).2.isSome = true →
      (quotaLocations_replace quota adm image locs).1 = image) ∧
    ((quotaTags_add limit image t).2.isSome = true →
      (quotaTags_add limit image t).1 = image) ∧
    ((quotaTags_replace limit image newTags).2.isSome = true →
      (quotaTags_replace limit image newTags).1 = image) := by
  refine ⟨?_, ?_, ?_, ?_, ?_, ?_, ?_⟩ <;>
    · simp only [quotaLocations_append, quotaLocations_insert,
        quotaLocations_extend, quotaLocations_iadd, quotaLocations_replace,
        quotaTags_add, quotaTags_replace]
      split <;> simp

/-- C5 witness: a concrete failing append (quota 10, image of size 10
already holding one location) leaves the image unchanged. -/
theorem quota_failure_leaves_image_unchanged_witness :
    (quotaLocations_append 10 false sampleImage
      { url := "file:///a/path", metadata := [] }).2.isSome = true ∧
    (quotaLocations_append 10 false sampleImage
      { url := "file:///a/path", metadata := [] }).1 = sampleImage :=
  ⟨by decide,
   (quota_failure_leaves_image_unchanged 10 0 false sampleImage
     { url := "file:///a/path", metadata := [] } [] 0 "t" []).1 (by decide)⟩

/-- The storage check over a natural quota and a weighted size given as
a product of naturals, reduced to a natural-number comparison. -/
theorem storage_ok_weight (q S c : Nat) :
    storage_ok (q : Int) false ((S : Int) * (c : Int)) = true ↔ S * c ≤ q := by
  have h : ((S : Int) * (c : Int)) = ((S * c : Nat) : Int) := by
    push_cast; ring
  rw [h]
  simp only [storage_ok, Bool.false_or, Bool.or_eq_true, decide_eq_true_eq]
  omega

/-- C7: each location weighs the full image size for storage quota
purposes; with quota S * N and an image of size S already holding N
locations, every append, insert, extend and in-place concatenation
fails with the storage quota error, a bulk replace by more than N
locations fails, and a replacement by at most N locations succeeds. -/
theorem location_storage_weighting (S N : Nat) (hS : 0 < S) (image : Image)
    (loc : Location) (locs : List Location) (idx : Nat)
    (newLocs : List Location) (hsize : image.size = (S : Int))
    (hcount : image.locations.length = N) (hlocs : locs ≠ []) :
    (quotaLocations_append ((S * N : Nat) : Int) false image loc).2 =
      some .storageQuotaFull ∧
    (quotaLocations_insert ((S * N : Nat) : Int) false image idx loc).2 =
      some .storageQuotaFull ∧
    (quotaLocations_extend ((S * N : Nat) : Int) false image locs).2 =
      some .storageQuotaFull ∧
    (quotaLocations_iadd ((S * N : Nat) : Int) false image locs).2 =
      some .storageQuotaFull ∧
    (N < newLocs.length →
      (quotaLocations_replace ((S * N : Nat) : Int) false image newLocs).2 =
        some .storageQuotaFull) ∧
    (newLocs.length ≤ N →
      (quotaLocations_replace ((S * N : Nat) : Int) false image newLocs).2 =
        none) := by
  have hone : ¬ (storage_ok ((S * N : Nat) : Int) false
      (weightedSize image (image.locations.length + 1)) = true) := by
    simp only [weightedSize, hsize, hcount]
    rw [storage_ok_weight]
    rw [Nat.mul_succ]
    omega
  have hmany : ¬ (storage_ok ((S * N : Nat) : Int) false
      (weightedSize image (image.locations.length + locs.length)) = true) := by
    simp only [weightedSize, hsize, hcount]
    rw [storage_ok_weight]
    have h2 := Nat.mul_le_mul_left S
      (show N + 1 ≤ N + locs.length by
        have := List.length_pos.mpr hlocs; omega)
    rw [Nat.mul_succ] at h2
    omega
  refine ⟨?_, ?_, ?_, ?_, fun hgt => ?_, fun hle => ?_⟩
  · simp only [quotaLocations_append, if_neg hone]
  · simp only [quotaLocations_insert, if_neg hone]
  · simp only [quotaLocations_extend, if_neg hmany]
  · simp only [quotaLocations_iadd, quotaLocations_extend, if_neg hmany]
  · have hrep : ¬ (storage_ok ((S * N : Nat) : Int) false
        (weightedSize image newLocs.length) = true) := by
      simp only [weightedSize, hsize]
      rw [storage_ok_weight]
      have h2 := Nat.mul_le_mul_left S (show N + 1 ≤ newLocs.length by omega)
      rw [Nat.mul_succ] at h2
      omega
    simp only [quotaLocations_replace, if_neg hrep]
  · have hok : storage_ok ((S * N : Nat) : Int) false
        (weightedSize image newLocs.length) = true := by
      simp only [weightedSize, hsize]
      rw [storage_ok_weight]
      exact Nat.mul_le_mul_left S hle
    simp only [quotaLocations_replace, if_pos hok]

/-- C7 witness: with quota 10 = size 10 times one location, appending a
second location to the sample image fails with the storage quota error,
while replacing its single location with another single location
succeeds. -/
theorem location_storage_weighting_witness :
    (quotaLocations_append ((10 * 1 : Nat) : Int) false sampleImage
      { url := "file:///a/path", metadata := [] }).2 =
      some .storageQuotaFull ∧
    (quotaLocations_replace ((10 * 1 : Nat) : Int) false sampleImage
      [{ url := "file:///a/path", metadata := [] }]).2 = none :=
  ⟨(location_storage_weighting 10 1 (by decide) sampleImage
      { url := "file:///a/path", metadata := [] }
      [{ url := "file:///a/path", metadata := [] }] 0
      [{ url := "file:///a/path", metadata := [] }] rfl rfl
      (by decide)).1,
   (location_storage_weighting 10 1 (by decide) sampleImage
      { url := "file:///a/path", metadata := [] }
      [{ url := "file:///a/path", metadata := [] }] 0
      [{ url := "file:///a/path", metadata := [] }] rfl rfl
      (by decide)).2.2.2.2.2 (by decide)⟩

end Glance
